import Mathlib

/-!
Shallow embedding of the ye-meme-trader position-lifecycle and risk-control
code, and proofs checking the natural-language specification against it.

Conventions: Python floats and Decimals are modelled as rationals; timestamps
are rational numbers of seconds (datetime arithmetic becomes subtraction,
timedelta(days=1) is 86400 seconds); external collaborators (price feeds,
quote and swap clients) appear as explicit parameters of each operation.
-/

namespace YeMemeTrader

/-! Circuit breaker state of trading/auto_trader.py (AutoTrader.__init__):
daily counters, error counter with timeout, and the persistent halt flags
emergency_stop, stop_loss_triggered and trading_enabled. -/

structure BreakerState where
  maxDailyTrades : Nat
  maxDailyLoss : ℚ
  dailyTrades : Nat
  dailyLoss : ℚ
  lastReset : ℚ
  tradingEnabled : Bool
  errorCount : Nat
  maxErrors : Nat
  lastErrorTime : ℚ
  errorTimeout : ℚ
  emergencyStop : Bool
  stopLossTriggered : Bool
deriving DecidableEq, Repr

/-- AutoTrader.reset_daily_limits: when strictly more than one day has passed
since last_reset, zero daily_trades, daily_loss and error_count and move
last_reset to now. -/
def reset_daily_limits (now : ℚ) (s : BreakerState) : BreakerState :=
  if 86400 < now - s.lastReset then
    { s with dailyTrades := 0, dailyLoss := 0, lastReset := now, errorCount := 0 }
  else s

/-- The check chain of AutoTrader.check_circuit_breaker after the daily
reset: returns whether trading is allowed, together with the state after the
side effects (setting stop_loss_triggered on crossing the loss limit,
clearing error_count once the error timeout has elapsed). -/
def check_after_reset (now : ℚ) (s : BreakerState) : Bool × BreakerState :=
  if s.emergencyStop = true then (false, s)
  else if s.stopLossTriggered = true then (false, s)
  else if s.maxDailyTrades ≤ s.dailyTrades then (false, s)
  else if s.maxDailyLoss ≤ s.dailyLoss then (false, { s with stopLossTriggered := true })
  else if s.maxErrors ≤ s.errorCount then
    if now - s.lastErrorTime < s.errorTimeout then (false, s)
    else (s.tradingEnabled, { s with errorCount := 0 })
  else (s.tradingEnabled, s)

/-- AutoTrader.check_circuit_breaker as written in the source: first apply
any due daily reset, then run the chain of checks. -/
def check_circuit_breaker (now : ℚ) (s0 : BreakerState) : Bool × BreakerState :=
  check_after_reset now (reset_daily_limits now s0)

/-- AutoTrader.record_error: increment the error counter and stamp the time. -/
def record_error (now : ℚ) (s : BreakerState) : BreakerState :=
  { s with errorCount := s.errorCount + 1, lastErrorTime := now }

/-- AutoTrader.record_trade: count the trade and accumulate the absolute value
of a negative profit_loss into daily_loss. -/
def record_trade (profitLoss : ℚ) (s : BreakerState) : BreakerState :=
  { s with dailyTrades := s.dailyTrades + 1,
           dailyLoss := if profitLoss < 0 then s.dailyLoss + |profitLoss| else s.dailyLoss }

/-- AutoTrader.emergency_shutdown: set emergency_stop and disable trading. -/
def emergency_shutdown (s : BreakerState) : BreakerState :=
  { s with emergencyStop := true, tradingEnabled := false }

/-- The code's three persistent halt flags collected into the spec's single
`halted` notion: emergency_stop set, stop_loss_triggered set, or
trading_enabled cleared (the latter two are only ever set together with the
first by emergency_shutdown, or by crossing the loss limit). -/
def halted (s : BreakerState) : Prop :=
  s.emergencyStop = true ∨ s.stopLossTriggered = true ∨ s.tradingEnabled = false

/-- The blocking predicate in the spec's words: halted, or daily trade count
at its limit, or daily realized loss at its limit, or the error counter at its
limit with strictly less than error_timeout elapsed since the last error. -/
def may_trade_blocked (now : ℚ) (s : BreakerState) : Prop :=
  halted s ∨ s.maxDailyTrades ≤ s.dailyTrades ∨ s.maxDailyLoss ≤ s.dailyLoss ∨
    (s.maxErrors ≤ s.errorCount ∧ now - s.lastErrorTime < s.errorTimeout)

/-- Daily reset leaves the three persistent halt flags untouched. -/
lemma reset_daily_limits_flags (now : ℚ) (s : BreakerState) :
    (reset_daily_limits now s).stopLossTriggered = s.stopLossTriggered ∧
    (reset_daily_limits now s).emergencyStop = s.emergencyStop ∧
    (reset_daily_limits now s).tradingEnabled = s.tradingEnabled := by
  unfold reset_daily_limits
  split <;> exact ⟨rfl, rfl, rfl⟩

/-- The post-reset check chain blocks and preserves the flag whenever
stop_loss_triggered is set. -/
lemma check_after_reset_blocked_of_stop_loss (now : ℚ) (s : BreakerState)
    (h : s.stopLossTriggered = true) :
    (check_after_reset now s).1 = false ∧
    (check_after_reset now s).2.stopLossTriggered = true := by
  unfold check_after_reset
  split_ifs <;> simp_all

/-- Once stop_loss_triggered is set, every later check_circuit_breaker call
returns false and keeps the flag set: no reset path ever clears it. -/
lemma check_blocked_of_stop_loss (now : ℚ) (s : BreakerState)
    (h : s.stopLossTriggered = true) :
    (check_circuit_breaker now s).1 = false ∧
    (check_circuit_breaker now s).2.stopLossTriggered = true :=
  check_after_reset_blocked_of_stop_loss now (reset_daily_limits now s)
    (((reset_daily_limits_flags now s).1).trans h)

/-- C5: check_circuit_breaker (may_trade) returns false exactly when, in the
state obtained after applying any due daily reset, trading is halted
(emergency stop, sticky stop-loss halt, or trading disabled), or the daily
trade count has reached max_daily_trades, or the daily realized loss has
reached max_daily_loss, or the error counter has reached max_errors with
strictly less than error_timeout elapsed since the last error; in every other
state it returns true. -/
theorem check_circuit_breaker_false_iff (now : ℚ) (s : BreakerState) :
    (check_circuit_breaker now s).1 = false ↔
      may_trade_blocked now (reset_daily_limits now s) := by
  unfold check_circuit_breaker check_after_reset may_trade_blocked halted
  split_ifs <;> simp_all

/-- C2 counterexample: from a state that has just crossed max_daily_loss
within the current window (daily_loss = max_daily_loss = 1, everything else
clean), the check at time 0 blocks trading; 90000 seconds later the 24h
window has expired (86400 < 90000 - last_reset), yet the first check after
the reset still returns false — the loss-based halt does not clear at the
daily window reset, contrary to the claim. -/
def c2State : BreakerState :=
  { maxDailyTrades := 10, maxDailyLoss := 1, dailyTrades := 0, dailyLoss := 1,
    lastReset := 0, tradingEnabled := true, errorCount := 0, maxErrors := 3,
    lastErrorTime := 0, errorTimeout := 300, emergencyStop := false,
    stopLossTriggered := false }

/-- C2: the loss-based halt survives the daily reset. At time 0 the check
blocks and sets stop_loss_triggered; at time 90000, past the 24h window, the
check still returns false. -/
theorem c2_loss_halt_survives_reset :
    (check_circuit_breaker 0 c2State).1 = false ∧
    86400 < (90000 : ℚ) - (check_circuit_breaker 0 c2State).2.lastReset ∧
    (check_circuit_breaker 90000 (check_circuit_breaker 0 c2State).2).1 = false := by
  norm_num [check_circuit_breaker, check_after_reset, reset_daily_limits, c2State]

/-- C2 amended: once daily_realized_loss reaches max_daily_loss,
check_circuit_breaker returns false and sets stop_loss_triggered, and every
subsequent check — at any later time, before or after the daily window
reset — returns false with the flag still set: the loss-based halt never
self-clears. -/
theorem loss_halt_never_clears (s : BreakerState) (now later : ℚ)
    (hE : s.emergencyStop = false) (hS : s.stopLossTriggered = false)
    (hW : now - s.lastReset ≤ 86400)
    (hT : s.dailyTrades < s.maxDailyTrades)
    (hL : s.maxDailyLoss ≤ s.dailyLoss) :
    (check_circuit_breaker now s).1 = false ∧
    (check_circuit_breaker now s).2.stopLossTriggered = true ∧
    (check_circuit_breaker later (check_circuit_breaker now s).2).1 = false ∧
    (check_circuit_breaker later (check_circuit_breaker now s).2).2.stopLossTriggered
      = true := by
  have hreset : reset_daily_limits now s = s := by
    unfold reset_daily_limits
    rw [if_neg (not_lt.mpr hW)]
  have hstep : check_circuit_breaker now s
      = (false, { s with stopLossTriggered := true }) := by
    unfold check_circuit_breaker check_after_reset
    rw [hreset]
    rw [if_neg (by simp [hE]), if_neg (by simp [hS]), if_neg (not_le.mpr hT),
      if_pos hL]
  rw [hstep]
  have hnext := check_blocked_of_stop_loss later { s with stopLossTriggered := true }
    (by rfl)
  exact ⟨rfl, rfl, hnext.1, hnext.2⟩

/-- C2 witness: the amended theorem applied at the concrete crossing state,
with the later check 90000 seconds after window start. -/
theorem loss_halt_never_clears_witness :
    (check_circuit_breaker 0 c2State).1 = false ∧
    (check_circuit_breaker 0 c2State).2.stopLossTriggered = true ∧
    (check_circuit_breaker 90000 (check_circuit_breaker 0 c2State).2).1 = false ∧
    (check_circuit_breaker 90000 (check_circuit_breaker 0 c2State).2).2.stopLossTriggered
      = true :=
  loss_halt_never_clears c2State 0 90000 (by norm_num [c2State])
    (by norm_num [c2State]) (by norm_num [c2State]) (by norm_num [c2State])
    (by norm_num [c2State])

/-- C9: on the first check_circuit_breaker call strictly more than 24 hours
(86400 s) after the previous reset, reset_daily_limits zeroes
daily_trade_count, daily_realized_loss and the consecutive error counter, so
the check returns true even while the error counter is at max_errors and less
than error_timeout has elapsed since the last error. -/
theorem daily_reset_clears_error_block (s : BreakerState) (now : ℚ)
    (hW : 86400 < now - s.lastReset)
    (hE : s.emergencyStop = false) (hS : s.stopLossTriggered = false)
    (hEn : s.tradingEnabled = true)
    (hT : 0 < s.maxDailyTrades) (hL : 0 < s.maxDailyLoss) (hM : 0 < s.maxErrors)
    (_hErr : s.maxErrors ≤ s.errorCount)
    (_hTo : now - s.lastErrorTime < s.errorTimeout) :
    (reset_daily_limits now s).errorCount = 0 ∧
    (reset_daily_limits now s).dailyTrades = 0 ∧
    (reset_daily_limits now s).dailyLoss = 0 ∧
    (check_circuit_breaker now s).1 = true := by
  have hreset : reset_daily_limits now s
      = { s with dailyTrades := 0, dailyLoss := 0, lastReset := now,
                 errorCount := 0 } := by
    unfold reset_daily_limits
    rw [if_pos hW]
  refine ⟨by rw [hreset], by rw [hreset], by rw [hreset], ?_⟩
  unfold check_circuit_breaker check_after_reset
  rw [hreset]
  rw [if_neg (by simp [hE]), if_neg (by simp [hS]),
    if_neg (by simpa using Nat.not_le.mpr hT), if_neg (by simpa using not_le.mpr hL),
    if_neg (by simpa using Nat.not_le.mpr hM)]
  exact hEn

/-- C9 state for the witness: error counter saturated 50 seconds ago, window
expired 90000 seconds after start. -/
def c9State : BreakerState :=
  { maxDailyTrades := 10, maxDailyLoss := 1, dailyTrades := 4, dailyLoss := 1/2,
    lastReset := 0, tradingEnabled := true, errorCount := 3, maxErrors := 3,
    lastErrorTime := 89950, errorTimeout := 300, emergencyStop := false,
    stopLossTriggered := false }

/-- C9 witness: the theorem applied at the concrete saturated-error state. -/
theorem daily_reset_clears_error_block_witness :
    (reset_daily_limits 90000 c9State).errorCount = 0 ∧
    (reset_daily_limits 90000 c9State).dailyTrades = 0 ∧
    (reset_daily_limits 90000 c9State).dailyLoss = 0 ∧
    (check_circuit_breaker 90000 c9State).1 = true :=
  daily_reset_clears_error_block c9State 90000 (by norm_num [c9State])
    (by norm_num [c9State]) (by norm_num [c9State]) (by norm_num [c9State])
    (by norm_num [c9State]) (by norm_num [c9State]) (by norm_num [c9State])
    (by norm_num [c9State]) (by norm_num [c9State])

/-- C6: record_trade never touches the error counter; after three
consecutive record_error calls in a state with max_errors = 3 and
error_timeout = 300, check_circuit_breaker returns false while less than 300
seconds have elapsed since the last error, and returns true again once 300
seconds have elapsed — with no successful trade recorded in between (the only
clearing mechanism is the elapsed timeout, both checks staying inside the
same daily window). -/
theorem error_block_clears_by_timeout_only (s0 : BreakerState)
    (t1 t2 t3 t4 t5 : ℚ)
    (hE : s0.emergencyStop = false) (hS : s0.stopLossTriggered = false)
    (hEn : s0.tradingEnabled = true)
    (hE0 : s0.errorCount = 0) (hM : s0.maxErrors = 3) (hTo : s0.errorTimeout = 300)
    (hT : s0.dailyTrades < s0.maxDailyTrades) (hL : s0.dailyLoss < s0.maxDailyLoss)
    (hW4 : t4 - s0.lastReset ≤ 86400) (hW5 : t5 - s0.lastReset ≤ 86400)
    (h4 : t4 - t3 < 300) (h5 : 300 ≤ t5 - t3) :
    (∀ (s : BreakerState) (q : ℚ), (record_trade q s).errorCount = s.errorCount) ∧
    (check_circuit_breaker t4 (record_error t3 (record_error t2 (record_error t1 s0)))).1
      = false ∧
    (check_circuit_breaker t5 (record_error t3 (record_error t2 (record_error t1 s0)))).1
      = true := by
  refine ⟨fun s q => rfl, ?_, ?_⟩ <;>
  · unfold check_circuit_breaker check_after_reset reset_daily_limits record_error
    simp only []
    split_ifs <;> simp_all <;> linarith

/-- C6 base state for the witness: a fresh breaker with default limits. -/
def c6State : BreakerState :=
  { maxDailyTrades := 10, maxDailyLoss := 1, dailyTrades := 0, dailyLoss := 0,
    lastReset := 0, tradingEnabled := true, errorCount := 0, maxErrors := 3,
    lastErrorTime := 0, errorTimeout := 300, emergencyStop := false,
    stopLossTriggered := false }

/-- C6 witness: errors at 0 s, 30 s and 60 s; the check at 100 s (40 s after
the last error) blocks, the check at 400 s (340 s after) allows again. -/
theorem error_block_clears_by_timeout_only_witness :
    (∀ (s : BreakerState) (q : ℚ), (record_trade q s).errorCount = s.errorCount) ∧
    (check_circuit_breaker 100 (record_error 60 (record_error 30 (record_error 0 c6State)))).1
      = false ∧
    (check_circuit_breaker 400 (record_error 60 (record_error 30 (record_error 0 c6State)))).1
      = true :=
  error_block_clears_by_timeout_only c6State 0 30 60 100 400
    (by norm_num [c6State]) (by norm_num [c6State]) (by norm_num [c6State])
    (by norm_num [c6State]) (by norm_num [c6State]) (by norm_num [c6State])
    (by norm_num [c6State]) (by norm_num [c6State]) (by norm_num [c6State])
    (by norm_num [c6State]) (by norm_num [c6State]) (by norm_num [c6State])

/-! Budget and trade execution of src/ye_meme_trader/services/auto_trader.py
(the services AutoTrader). Price fetches and swap outcomes are external
collaborators, passed as explicit parameters: solPrice is the SOL price the
Birdeye fetch returned (none on failure), quoteOk and swapOk whether the
Jupiter quote and the swap succeeded. -/

inductive TradeSide
  | buy
  | sell
deriving DecidableEq, Repr

/-- The fields of models/trade.py Trade that the budget logic reads. -/
structure TradeRec where
  tradeId : String
  tokenAddress : String
  side : TradeSide
  amountSol : ℚ
deriving DecidableEq, Repr

/-- Process-wide trader state: the USD budget, the derived SOL budget and the
active_trades dictionary, keyed by trade id as in the source. -/
structure TraderState where
  usdBudget : ℚ
  solBudget : ℚ
  activeTrades : List (String × TradeRec)
deriving DecidableEq, Repr

/-- AutoTrader.update_sol_budget: recompute sol_budget = usd_budget divided by
the fetched SOL price; on a failed fetch or a non-positive price, leave the
state unchanged. -/
def update_sol_budget (solPrice : Option ℚ) (s : TraderState) : TraderState :=
  match solPrice with
  | none => s
  | some p => if p ≤ 0 then s else { s with solBudget := s.usdBudget / p }

/-- TRADING_CONFIG min_trade_amount_sol of config/settings.py. -/
def min_trade_amount_sol : ℚ := 1/10

/-- TRADING_CONFIG max_trade_amount_sol of config/settings.py. -/
def max_trade_amount_sol : ℚ := 5

/-- The sizing arithmetic of AutoTrader.calculate_trade_amount: 50% of the
budget as base amount, scaled by confidence, capped by max_trade_amount_sol
and by the budget itself, floored at min_trade_amount_sol. -/
def calc_amount_clamped (confidence budget : ℚ) : ℚ :=
  max (min (min (budget * (1/2) * confidence) max_trade_amount_sol) budget)
    min_trade_amount_sol

/-- AutoTrader.calculate_trade_amount: refresh the SOL budget, then apply the
sizing arithmetic to it; the surrounding try/except returns
min_trade_amount_sol when an internal error is raised (raisedError models
that exception path). -/
def calculate_trade_amount (solPrice : Option ℚ) (confidence : ℚ)
    (raisedError : Bool) (s : TraderState) : ℚ × TraderState :=
  if raisedError then (min_trade_amount_sol, s)
  else (calc_amount_clamped confidence (update_sol_budget solPrice s).solBudget,
        update_sol_budget solPrice s)

/-- Python dict assignment active_trades[trade.id] = trade on an association
list. -/
def dictUpsert (k : String) (v : TradeRec) :
    List (String × TradeRec) → List (String × TradeRec)
  | [] => [(k, v)]
  | (k', v') :: rest =>
      if k' = k then (k, v) :: rest else (k', v') :: dictUpsert k v rest

/-- Python dict lookup on the association list. -/
def dictFind (k : String) : List (String × TradeRec) → Option TradeRec
  | [] => none
  | (k', v') :: rest => if k' = k then some v' else dictFind k rest

/-- The budget mutation after a successful swap: subtract the trade amount
for a buy, add it back for a sell. -/
def apply_fill (t : TradeRec) (s2 : TraderState) : TraderState :=
  match t.side with
  | TradeSide.buy => { s2 with solBudget := s2.solBudget - t.amountSol }
  | TradeSide.sell => { s2 with solBudget := s2.solBudget + t.amountSol }

/-- The body of AutoTrader.execute_trade after the budget refresh: reject a
buy whose amount exceeds the refreshed budget, fail if the quote or the swap
fails, and on success store the trade under its id in active_trades and apply
the budget mutation. -/
def exec_after_update (quoteOk swapOk : Bool) (t : TradeRec)
    (s1 : TraderState) : Bool × TraderState :=
  if t.side = TradeSide.buy ∧ s1.solBudget < t.amountSol then (false, s1)
  else if quoteOk = false then (false, s1)
  else if swapOk = false then (false, s1)
  else (true,
    apply_fill t { s1 with activeTrades := dictUpsert t.tradeId t s1.activeTrades })

/-- AutoTrader.execute_trade: refresh the SOL budget from the fetched SOL
price, then run the checks and, on success, the state mutation. -/
def execute_trade (solPrice : Option ℚ) (quoteOk swapOk : Bool)
    (t : TradeRec) (s : TraderState) : Bool × TraderState :=
  exec_after_update quoteOk swapOk t (update_sol_budget solPrice s)

/-- One execute_trade call with its external-collaborator outcomes. -/
structure ExecCall where
  solPrice : Option ℚ
  quoteOk : Bool
  swapOk : Bool
  trade : TradeRec
deriving Repr

/-- A sequence of execute_trade calls threaded through the trader state. -/
def execute_trade_run (calls : List ExecCall) (s : TraderState) : TraderState :=
  calls.foldl (fun st c => (execute_trade c.solPrice c.quoteOk c.swapOk c.trade st).2) s

/-- Refreshing the budget never changes the USD budget and keeps the SOL
budget non-negative when both budgets were non-negative. -/
lemma update_sol_budget_invariants (solPrice : Option ℚ) (s : TraderState)
    (hU : 0 ≤ s.usdBudget) (hB : 0 ≤ s.solBudget) :
    (update_sol_budget solPrice s).usdBudget = s.usdBudget ∧
    0 ≤ (update_sol_budget solPrice s).solBudget := by
  cases solPrice with
  | none => exact ⟨rfl, hB⟩
  | some p =>
      by_cases hp : p ≤ 0
      · refine ⟨?_, ?_⟩ <;> simp [update_sol_budget, hp, hB]
      · refine ⟨?_, ?_⟩ <;>
          simp [update_sol_budget, hp, div_nonneg hU (le_of_lt (not_le.mp hp))]

/-- One execute_trade call keeps the USD budget and, for a trade of
non-negative size, keeps the SOL budget non-negative: the buy branch is
guarded by the budget check and the sell branch only adds. -/
lemma execute_trade_budget_step (solPrice : Option ℚ) (quoteOk swapOk : Bool)
    (t : TradeRec) (s : TraderState)
    (hU : 0 ≤ s.usdBudget) (hB : 0 ≤ s.solBudget) (hA : 0 ≤ t.amountSol) :
    (execute_trade solPrice quoteOk swapOk t s).2.usdBudget = s.usdBudget ∧
    0 ≤ (execute_trade solPrice quoteOk swapOk t s).2.solBudget := by
  obtain ⟨hU1, hB1⟩ := update_sol_budget_invariants solPrice s hU hB
  unfold execute_trade exec_after_update
  split_ifs with h1 h2 h3
  · exact ⟨hU1, hB1⟩
  · exact ⟨hU1, hB1⟩
  · exact ⟨hU1, hB1⟩
  · cases ht : t.side with
    | buy =>
        have hle : t.amountSol ≤ (update_sol_budget solPrice s).solBudget := by
          by_contra hgt
          exact h1 ⟨ht, not_le.mp hgt⟩
        refine ⟨?_, ?_⟩ <;> simp [apply_fill, ht, hU1, sub_nonneg.mpr hle]
    | sell =>
        refine ⟨?_, ?_⟩ <;> simp [apply_fill, ht, hU1, add_nonneg hB1 hA]

/-- C1 amended: across every sequence of execute_trade calls with
non-negative trade sizes, starting from non-negative USD and SOL budgets, the
SOL budget never goes negative (each buy is rejected when its amount exceeds
the refreshed budget); the upper bound of the claim fails, see the
counterexample. -/
theorem execute_trade_run_budget_nonneg (calls : List ExecCall)
    (s : TraderState) (hU : 0 ≤ s.usdBudget) (hB : 0 ≤ s.solBudget)
    (hA : ∀ c ∈ calls, 0 ≤ c.trade.amountSol) :
    0 ≤ (execute_trade_run calls s).solBudget := by
  induction calls generalizing s with
  | nil => simpa [execute_trade_run] using hB
  | cons c cs ih =>
      have hstep := execute_trade_budget_step c.solPrice c.quoteOk c.swapOk
        c.trade s hU hB (hA c (List.mem_cons_self c cs))
      have : execute_trade_run (c :: cs) s
          = execute_trade_run cs (execute_trade c.solPrice c.quoteOk c.swapOk c.trade s).2 := by
        rfl
      rw [this]
      exact ih _ (by rw [hstep.1]; exact hU) hstep.2
        (fun d hd => hA d (List.mem_cons_of_mem c hd))

/-- C1 trades: a buy of 3 SOL and the matching sell closing it. -/
def c1Buy : TradeRec :=
  { tradeId := "buy1", tokenAddress := "tokA", side := TradeSide.buy, amountSol := 3 }

def c1Sell : TradeRec :=
  { tradeId := "sell1", tokenAddress := "tokA", side := TradeSide.sell, amountSol := 3 }

/-- Fresh trader: 10 USD budget (10 SOL of total capital at a SOL price of
1), sol_budget still uncomputed as in AutoTrader.__init__. -/
def c1Start : TraderState := { usdBudget := 10, solBudget := 0, activeTrades := [] }

/-- C1 counterexample: with total capital 10 (usd_budget 10 at constant SOL
price 1), reserving 3 by a buy leaves sol_budget 7, but releasing the same 3
by the closing sell leaves sol_budget 13 — because execute_trade first
refreshes sol_budget back to the full 10 and then adds the sell amount — so
the available budget exceeds total_capital, contradicting the claimed upper
bound. -/
theorem budget_exceeds_total_after_release :
    (execute_trade (some 1) true true c1Buy c1Start).2.solBudget = 7 ∧
    (execute_trade (some 1) true true c1Sell
        (execute_trade (some 1) true true c1Buy c1Start).2).2.solBudget = 13 ∧
    c1Start.usdBudget / 1 < 13 := by
  refine ⟨?_, ?_, ?_⟩ <;>
    norm_num [execute_trade, exec_after_update, update_sol_budget, apply_fill,
      c1Buy, c1Sell, c1Start]

/-- C1 witness calls: the buy and the closing sell of the counterexample. -/
def c1Calls : List ExecCall :=
  [{ solPrice := some 1, quoteOk := true, swapOk := true, trade := c1Buy },
   { solPrice := some 1, quoteOk := true, swapOk := true, trade := c1Sell }]

/-- C1 witness: the amended non-negativity theorem applied to the concrete
buy-then-sell sequence. -/
theorem execute_trade_run_budget_nonneg_witness :
    0 ≤ (execute_trade_run c1Calls c1Start).solBudget :=
  execute_trade_run_budget_nonneg c1Calls c1Start (by norm_num [c1Start])
    (by norm_num [c1Start])
    (by
      intro c hc
      simp only [c1Calls, List.mem_cons, List.not_mem_nil, or_false] at hc
      rcases hc with h | h <;> subst h <;> norm_num [c1Buy, c1Sell])

/-- C10: for every confidence in [0,1], every price-fetch outcome and every
trader state, calculate_trade_amount returns at least min_trade_amount_sol;
when the internal-error path is taken it returns exactly min_trade_amount_sol;
and when the refreshed budget is below min_trade_amount_sol the returned size
strictly exceeds the available budget. -/
theorem calculate_trade_amount_min (solPrice : Option ℚ) (confidence : ℚ)
    (raisedError : Bool) (s : TraderState)
    (_h0 : 0 ≤ confidence) (_h1 : confidence ≤ 1) :
    min_trade_amount_sol ≤ (calculate_trade_amount solPrice confidence raisedError s).1 ∧
    (raisedError = true →
      (calculate_trade_amount solPrice confidence raisedError s).1
        = min_trade_amount_sol) ∧
    ((update_sol_budget solPrice s).solBudget < min_trade_amount_sol →
      (update_sol_budget solPrice s).solBudget
        < (calculate_trade_amount solPrice confidence raisedError s).1) := by
  unfold calculate_trade_amount calc_amount_clamped
  by_cases he : raisedError = true
  · rw [if_pos he]
    exact ⟨le_refl _, fun _ => rfl, fun h => h⟩
  · rw [if_neg he]
    exact ⟨le_max_right _ _, fun h => absurd h he,
      fun h => lt_of_lt_of_le h (le_max_right _ _)⟩

/-- C10 witness state: 0.1 USD of budget, so at a SOL price of 2 the
refreshed budget is 0.05 SOL, below the 0.1 SOL minimum trade size. -/
def c10State : TraderState := { usdBudget := 1/10, solBudget := 0, activeTrades := [] }

/-- C10 witness: the theorem applied at confidence 1 on the tiny budget. -/
theorem calculate_trade_amount_min_witness :
    min_trade_amount_sol ≤ (calculate_trade_amount (some 2) 1 false c10State).1 ∧
    (false = true →
      (calculate_trade_amount (some 2) 1 false c10State).1 = min_trade_amount_sol) ∧
    ((update_sol_budget (some 2) c10State).solBudget < min_trade_amount_sol →
      (update_sol_budget (some 2) c10State).solBudget
        < (calculate_trade_amount (some 2) 1 false c10State).1) :=
  calculate_trade_amount_min (some 2) 1 false c10State (by norm_num) (by norm_num)

/-- One submission of a buy signal: size it with calculate_trade_amount (the
sizing step; the function is not invoked from any other module of the repo)
and pass the sized buy to execute_trade, with the price fetch, the quote and
the swap all succeeding. -/
def submit (solPrice : Option ℚ) (confidence : ℚ) (tid tok : String)
    (s : TraderState) : Bool × ℚ × TraderState :=
  ((execute_trade solPrice true true
      { tradeId := tid, tokenAddress := tok, side := TradeSide.buy,
        amountSol := (calculate_trade_amount solPrice confidence false s).1 }
      (calculate_trade_amount solPrice confidence false s).2).1,
   (calculate_trade_amount solPrice confidence false s).1,
   (execute_trade solPrice true true
      { tradeId := tid, tokenAddress := tok, side := TradeSide.buy,
        amountSol := (calculate_trade_amount solPrice confidence false s).1 }
      (calculate_trade_amount solPrice confidence false s).2).2)

/-- C7 scenario start: 10 units of budget at SOL price 1. -/
def c7s0 : TraderState := { usdBudget := 10, solBudget := 0, activeTrades := [] }

/-- State after the first confidence-1.0 submission of the C7 scenario. -/
def c7s1 : TraderState := (submit (some 1) 1 "t1" "tokA" c7s0).2.2

/-- State after the second confidence-1.0 submission of the C7 scenario. -/
def c7s2 : TraderState := (submit (some 1) 1 "t2" "tokB" c7s1).2.2

/-- C7 counterexample: with budget 10 and confidence 1.0, the first and
second submissions each size and reserve 5 units, but the third submission is
not rejected: it also succeeds and reserves another 5 units, because each
call refreshes sol_budget from the USD budget and the SOL price instead of
tracking committed capital — no InsufficientBudget occurs. -/
theorem third_submission_not_rejected :
    (submit (some 1) 1 "t1" "tokA" c7s0).2.1 = 5 ∧
    (submit (some 1) 1 "t2" "tokB" c7s1).2.1 = 5 ∧
    (submit (some 1) 1 "t3" "tokC" c7s2).1 = true ∧
    (submit (some 1) 1 "t3" "tokC" c7s2).2.1 = 5 := by
  refine ⟨?_, ?_, ?_, ?_⟩ <;>
    norm_num [submit, calculate_trade_amount, calc_amount_clamped, execute_trade,
      exec_after_update, update_sol_budget, apply_fill, min_trade_amount_sol,
      max_trade_amount_sol, c7s0, c7s1, c7s2]

/-- C7 amended: the trade size is confidence times the refreshed budget
(usd_budget divided by the SOL price) times the 0.5 single-trade fraction,
capped by max_trade_amount_sol and the refreshed budget and floored at
min_trade_amount_sol; in the scenario with budget 10 and confidence 1.0 the
first and second submissions each reserve exactly 5 units, and the third
submission also succeeds with 5 units instead of being rejected with
InsufficientBudget. -/
theorem submission_sizing_and_no_rejection (p conf : ℚ) (s : TraderState)
    (hp : 0 < p) :
    (calculate_trade_amount (some p) conf false s).1
      = max (min (min (s.usdBudget / p * (1/2) * conf) max_trade_amount_sol)
          (s.usdBudget / p)) min_trade_amount_sol ∧
    (submit (some 1) 1 "t1" "tokA" c7s0).2.1 = 5 ∧
    (submit (some 1) 1 "t1" "tokA" c7s0).1 = true ∧
    (submit (some 1) 1 "t2" "tokB" c7s1).2.1 = 5 ∧
    (submit (some 1) 1 "t2" "tokB" c7s1).1 = true ∧
    (submit (some 1) 1 "t3" "tokC" c7s2).2.1 = 5 ∧
    (submit (some 1) 1 "t3" "tokC" c7s2).1 = true := by
  refine ⟨?_, ?_, ?_, ?_, ?_, ?_, ?_⟩
  · simp [calculate_trade_amount, calc_amount_clamped, update_sol_budget,
      not_le.mpr hp]
  all_goals
    norm_num [submit, calculate_trade_amount, calc_amount_clamped, execute_trade,
      exec_after_update, update_sol_budget, apply_fill, min_trade_amount_sol,
      max_trade_amount_sol, c7s0, c7s1, c7s2]

/-- C7 witness: the amended theorem applied at SOL price 2 and confidence
one half on the scenario start state. -/
theorem submission_sizing_and_no_rejection_witness :
    (calculate_trade_amount (some 2) (1/2) false c7s0).1
      = max (min (min (c7s0.usdBudget / 2 * (1/2) * (1/2)) max_trade_amount_sol)
          (c7s0.usdBudget / 2)) min_trade_amount_sol ∧
    (submit (some 1) 1 "t1" "tokA" c7s0).2.1 = 5 ∧
    (submit (some 1) 1 "t1" "tokA" c7s0).1 = true ∧
    (submit (some 1) 1 "t2" "tokB" c7s1).2.1 = 5 ∧
    (submit (some 1) 1 "t2" "tokB" c7s1).1 = true ∧
    (submit (some 1) 1 "t3" "tokC" c7s2).2.1 = 5 ∧
    (submit (some 1) 1 "t3" "tokC" c7s2).1 = true :=
  submission_sizing_and_no_rejection 2 (1/2) c7s0 (by norm_num)

/-- Upserting a key makes it map to the new value. -/
lemma dictFind_dictUpsert_self (k : String) (v : TradeRec)
    (l : List (String × TradeRec)) : dictFind k (dictUpsert k v l) = some v := by
  induction l with
  | nil => simp [dictUpsert, dictFind]
  | cons kv rest ih =>
      obtain ⟨k', v'⟩ := kv
      by_cases h : k' = k
      · simp [dictUpsert, dictFind, h]
      · simp [dictUpsert, dictFind, h, ih]

/-- Upserting one key leaves lookups of any other key unchanged. -/
lemma dictFind_dictUpsert_other (j k : String) (v : TradeRec)
    (l : List (String × TradeRec)) (h : k ≠ j) :
    dictFind j (dictUpsert k v l) = dictFind j l := by
  induction l with
  | nil => simp [dictUpsert, dictFind, h]
  | cons kv rest ih =>
      obtain ⟨k', v'⟩ := kv
      by_cases hk : k' = k
      · subst hk
        simp [dictUpsert, dictFind, h]
      · by_cases hj : k' = j
        · simp [dictUpsert, dictFind, hk, hj, Ne.symm h]
        · simp [dictUpsert, dictFind, hk, hj, ih]

/-- The budget refresh leaves active_trades unchanged. -/
lemma update_sol_budget_active (solPrice : Option ℚ) (s : TraderState) :
    (update_sol_budget solPrice s).activeTrades = s.activeTrades := by
  cases solPrice with
  | none => rfl
  | some p => by_cases hp : p ≤ 0 <;> simp [update_sol_budget, hp]

/-- A successful execute_trade stores exactly the submitted trade under its
trade id, on top of the previous active_trades. -/
lemma execute_trade_success_active (solPrice : Option ℚ) (quoteOk swapOk : Bool)
    (t : TradeRec) (s : TraderState)
    (h : (execute_trade solPrice quoteOk swapOk t s).1 = true) :
    (execute_trade solPrice quoteOk swapOk t s).2.activeTrades
      = dictUpsert t.tradeId t s.activeTrades := by
  have hupd := update_sol_budget_active solPrice s
  unfold execute_trade exec_after_update at h ⊢
  split_ifs at h ⊢ <;> simp_all
  cases ht : t.side <;> simp [apply_fill, ht, hupd]

/-- C8 first and second buy for the same token, under different trade ids. -/
def c8t1 : TradeRec :=
  { tradeId := "id1", tokenAddress := "tokX", side := TradeSide.buy, amountSol := 1 }

def c8t2 : TradeRec :=
  { tradeId := "id2", tokenAddress := "tokX", side := TradeSide.buy, amountSol := 1 }

/-- C8 start state: fresh trader with 10 USD of budget. -/
def c8s0 : TraderState := { usdBudget := 10, solBudget := 0, activeTrades := [] }

/-- C8 counterexample: a second buy signal for a token that already has a
live position is not rejected — it also executes successfully, and afterwards
active_trades holds two non-terminal positions for the same token (under the
two trade ids), contradicting the at-most-one-live-position-per-token
invariant. -/
theorem duplicate_token_positions :
    (execute_trade (some 1) true true c8t1 c8s0).1 = true ∧
    (execute_trade (some 1) true true c8t2
        (execute_trade (some 1) true true c8t1 c8s0).2).1 = true ∧
    dictFind "id1" (execute_trade (some 1) true true c8t2
        (execute_trade (some 1) true true c8t1 c8s0).2).2.activeTrades = some c8t1 ∧
    dictFind "id2" (execute_trade (some 1) true true c8t2
        (execute_trade (some 1) true true c8t1 c8s0).2).2.activeTrades = some c8t2 ∧
    c8t1.tokenAddress = c8t2.tokenAddress ∧ c8t1.tradeId ≠ c8t2.tradeId := by
  refine ⟨?_, ?_, ?_, ?_, by rfl, by decide⟩ <;>
    norm_num [execute_trade, exec_after_update, update_sol_budget, apply_fill,
      dictUpsert, dictFind, c8t1, c8t2, c8s0]

/-- C8 amended: execute_trade performs no per-token uniqueness check — the
active_trades dictionary is keyed by trade id — so whenever two submissions
with distinct trade ids for the same token both succeed, both positions are
live simultaneously: each is found under its id in active_trades, for the
same token address. -/
theorem duplicate_token_positions_general (t1 t2 : TradeRec)
    (p1 p2 : Option ℚ) (q1 w1 q2 w2 : Bool) (s : TraderState)
    (hid : t1.tradeId ≠ t2.tradeId) (htok : t1.tokenAddress = t2.tokenAddress)
    (h1 : (execute_trade p1 q1 w1 t1 s).1 = true)
    (h2 : (execute_trade p2 q2 w2 t2 (execute_trade p1 q1 w1 t1 s).2).1 = true) :
    dictFind t1.tradeId
        (execute_trade p2 q2 w2 t2 (execute_trade p1 q1 w1 t1 s).2).2.activeTrades
      = some t1 ∧
    dictFind t2.tradeId
        (execute_trade p2 q2 w2 t2 (execute_trade p1 q1 w1 t1 s).2).2.activeTrades
      = some t2 ∧
    t1.tokenAddress = t2.tokenAddress := by
  have e1 := execute_trade_success_active p1 q1 w1 t1 s h1
  have e2 := execute_trade_success_active p2 q2 w2 t2
    (execute_trade p1 q1 w1 t1 s).2 h2
  rw [e2, e1]
  refine ⟨?_, dictFind_dictUpsert_self _ _ _, htok⟩
  rw [dictFind_dictUpsert_other t1.tradeId t2.tradeId t2 _ (Ne.symm hid)]
  exact dictFind_dictUpsert_self _ _ _

/-- C8 witness: the amended theorem applied to the two concrete same-token
buys. -/
theorem duplicate_token_positions_general_witness :
    dictFind c8t1.tradeId (execute_trade (some 1) true true c8t2
        (execute_trade (some 1) true true c8t1 c8s0).2).2.activeTrades = some c8t1 ∧
    dictFind c8t2.tradeId (execute_trade (some 1) true true c8t2
        (execute_trade (some 1) true true c8t1 c8s0).2).2.activeTrades = some c8t2 ∧
    c8t1.tokenAddress = c8t2.tokenAddress :=
  duplicate_token_positions_general c8t1 c8t2 (some 1) (some 1) true true true true
    c8s0 (by decide) (by rfl)
    (by norm_num [execute_trade, exec_after_update, update_sol_budget, apply_fill,
      c8t1, c8s0])
    (by norm_num [execute_trade, exec_after_update, update_sol_budget, apply_fill,
      dictUpsert, c8t1, c8t2, c8s0])

/-! Position monitoring: the loop body of AutoTrader.monitor_position in
src/ye_meme_trader/services/auto_trader.py (one poll tick on a successful
price fetch), and YeMemeTrader.update_trades of trading/ye_meme_trader.py. -/

/-- TRADING_CONFIG position-management percentages (take_profit_pct,
stop_loss_pct, trailing_stop_pct). -/
structure MonitorConfig where
  takeProfitPct : ℚ
  stopLossPct : ℚ
  trailingStopPct : ℚ
deriving DecidableEq, Repr

/-- Reasons monitor_position closes a position. -/
inductive CloseReason
  | takeProfit
  | stopLoss
  | trailingStop
deriving DecidableEq, Repr

/-- The trailing-stop price as monitor_position computes it on a tick:
highest_price = max(initial_price, current_price) — recomputed from the two
prices of this tick alone — times (1 - trailing_stop_pct / 100). -/
def trailing_stop_price (trailingStopPct initialPrice currentPrice : ℚ) : ℚ :=
  max initialPrice currentPrice * (1 - trailingStopPct / 100)

/-- One poll tick of AutoTrader.monitor_position with a successful price
fetch: compute the price change percentage from the entry (initial) price,
then check take profit, then stop loss, then the trailing stop, in that
order; returns the close reason fired, if any. -/
def monitor_tick (cfg : MonitorConfig) (initialPrice currentPrice : ℚ) :
    Option CloseReason :=
  if cfg.takeProfitPct ≤ (currentPrice - initialPrice) / initialPrice * 100 then
    some CloseReason.takeProfit
  else if (currentPrice - initialPrice) / initialPrice * 100 ≤ cfg.stopLossPct then
    some CloseReason.stopLoss
  else if currentPrice < trailing_stop_price cfg.trailingStopPct initialPrice currentPrice then
    some CloseReason.trailingStop
  else none

/-- The per-trade state of trading/ye_meme_trader.py (the dict built by
YeMemeTrader.place_trade). -/
structure YTrade where
  entryPrice : ℚ
  amount : ℚ
  amountUsd : ℚ
  highestPrice : ℚ
  stopLoss : ℚ
  trailingStop : ℚ
  currentPrice : ℚ
  pnlPercentage : ℚ
deriving DecidableEq, Repr

/-- The per-trade body of YeMemeTrader.update_trades on a successful price
fetch: store the current price, the profit-and-loss percentage and the USD
value; no other field of the trade is written. -/
def update_trade (price : ℚ) (t : YTrade) : YTrade :=
  { t with currentPrice := price,
           pnlPercentage := (price - t.entryPrice) / t.entryPrice * 100,
           amountUsd := t.amount * price }

/-- C3 configuration: the scenario's static stop-loss of 15% (stop_loss_pct
is the signed threshold -15 in the config), trailing distance 20%, and the
config's 50% take-profit. -/
def c3Cfg : MonitorConfig :=
  { takeProfitPct := 50, stopLossPct := -15, trailingStopPct := 20 }

/-- C3 counterexample: for a position entered at 100, the tick at price 130
fires nothing, and the following tick at price 103 also fires nothing — in
particular no trailing-stop close at 104 — because the tick at 103 recomputes
highest_price as max(100, 103) = 103, so its trailing stop sits at 82.4, and
no arming threshold exists in the code. -/
theorem no_trailing_close_at_103 :
    monitor_tick c3Cfg 100 130 = none ∧ monitor_tick c3Cfg 100 103 = none := by
  constructor <;>
    norm_num [monitor_tick, trailing_stop_price, c3Cfg]

/-- C3 amended: on each successful tick the monitor checks take-profit first,
then the static stop-loss, then the trailing stop (computed from
max(initial_price, current_price) of this tick alone, with no activation
threshold): whenever the static stop-loss condition holds and take-profit
does not, the close fires as stop_loss — the static stop-loss takes priority
over the trailing stop, the reverse of the claimed order — and in the
scenario (entry 100, thresholds 50 / -15 / 20) neither the tick at 130 nor
the tick at 103 fires any exit. -/
theorem static_stop_priority_over_trailing (cfg : MonitorConfig)
    (initialPrice currentPrice : ℚ)
    (hsl : (currentPrice - initialPrice) / initialPrice * 100 ≤ cfg.stopLossPct)
    (htp : (currentPrice - initialPrice) / initialPrice * 100 < cfg.takeProfitPct) :
    monitor_tick cfg initialPrice currentPrice = some CloseReason.stopLoss ∧
    monitor_tick c3Cfg 100 130 = none ∧ monitor_tick c3Cfg 100 103 = none := by
  refine ⟨?_, ?_, ?_⟩
  · unfold monitor_tick
    rw [if_neg (not_le.mpr htp), if_pos hsl]
  all_goals norm_num [monitor_tick, trailing_stop_price, c3Cfg]

/-- C3 witness: the amended theorem applied at entry 100 and current price
80, which is 20% down, below the static stop-loss threshold of -15%. -/
theorem static_stop_priority_over_trailing_witness :
    monitor_tick c3Cfg 100 80 = some CloseReason.stopLoss ∧
    monitor_tick c3Cfg 100 130 = none ∧ monitor_tick c3Cfg 100 103 = none :=
  static_stop_priority_over_trailing c3Cfg 100 80
    (by norm_num [c3Cfg]) (by norm_num [c3Cfg])

/-- C4 concrete trade: entered at 100 as place_trade builds it (stop loss and
trailing stop both at 85, highest price at the entry). -/
def c4Trade : YTrade :=
  { entryPrice := 100, amount := 1, amountUsd := 100, highestPrice := 100,
    stopLoss := 85, trailingStop := 85, currentPrice := 100, pnlPercentage := 0 }

/-- C4 counterexample: for the same position (entry 100), the tick at 130
puts the trailing-stop price at 104, but the next tick at 103 puts it at
82.4: the effective highest price and the trailing-stop price both decreased
from one tick to the next, because monitor_position recomputes
highest_price = max(initial_price, current_price) per tick and keeps no
running maximum; update_trades of trading/ye_meme_trader.py likewise leaves
its stored highest_price untouched (it never becomes the max with the
current price). -/
theorem trailing_stop_price_decreases :
    trailing_stop_price 20 100 130 = 104 ∧
    trailing_stop_price 20 100 103 = 412/5 ∧
    trailing_stop_price 20 100 103 < trailing_stop_price 20 100 130 ∧
    (update_trade 130 c4Trade).highestPrice = 100 := by
  refine ⟨?_, ?_, ?_, by rfl⟩ <;> norm_num [trailing_stop_price, update_trade]

/-- C4 amended: neither implementation maintains a monotone running high —
update_trades never writes highest_price at all, and monitor_position only
forms max(initial_price, current_price) within a single tick, so whenever the
current price falls between ticks while staying at or above the entry price,
the trailing-stop price strictly decreases. -/
theorem no_running_high_maintained (price : ℚ) (t : YTrade)
    (d initialPrice c1 c2 : ℚ)
    (h1 : initialPrice ≤ c2) (h2 : c2 < c1) (hd : d < 100) :
    (update_trade price t).highestPrice = t.highestPrice ∧
    (update_trade price t).stopLoss = t.stopLoss ∧
    (update_trade price t).trailingStop = t.trailingStop ∧
    trailing_stop_price d initialPrice c2 < trailing_stop_price d initialPrice c1 := by
  refine ⟨rfl, rfl, rfl, ?_⟩
  unfold trailing_stop_price
  rw [max_eq_right h1, max_eq_right (h1.trans h2.le)]
  have hpos : 0 < 1 - d / 100 := by linarith
  exact mul_lt_mul_of_pos_right h2 hpos

/-- C4 witness: the amended theorem applied at the concrete 130-then-103
ticks with trailing distance 20. -/
theorem no_running_high_maintained_witness :
    (update_trade 130 c4Trade).highestPrice = c4Trade.highestPrice ∧
    (update_trade 130 c4Trade).stopLoss = c4Trade.stopLoss ∧
    (update_trade 130 c4Trade).trailingStop = c4Trade.trailingStop ∧
    trailing_stop_price 20 100 103 < trailing_stop_price 20 100 130 :=
  no_running_high_maintained 130 c4Trade 20 100 130 103
    (by norm_num) (by norm_num) (by norm_num)

end YeMemeTrader
